import Mathlib

/-!
Verification development for the dune-api repository.

The embedding models the resource path algebra of `src/resourcepath.ts`
(the `ResourcePath` factory, `isAbsolute`, `isRelative`, `resolvePath`),
the change decoding pipeline and PATCH route handler of the resource
router, the full-update (POST `path/:id`) route handler with the sample
`Skills` store, and the record-capability `adjust` contract.

JavaScript conventions used throughout:
- A value of the TypeScript type `ResourcePath | null | undefined` is
  modelled by `JSParent`: `jsNull` is the JS `null`, `jsUndef` is the JS
  `undefined`, and `jsNode p` is an actual path object.
- Thrown exceptions and rejected promises are both modelled with
  `Except JSErr`; `JSErr` distinguishes the `SyntaxError`, `TypeError`,
  `RangeError` and plain `Error` constructors the source uses.
- Reading a property of `null`/`undefined` is a `TypeError`, which the
  embedding raises explicitly wherever the source would perform such a
  read.
-/

namespace DuneApi

/-- The JavaScript error classes thrown or used as promise rejection
reasons in the source. -/
inductive JSErr : Type where
  | synError (msg : String)
  | typError (msg : String)
  | rngError (msg : String)
  | jsError (msg : String)
deriving DecidableEq, Repr

mutual

/-- A resource path node: `{ name, parent, absolute?, relative? }` from
`src/resourcepath.ts`.  The optional `absolute`/`relative` booleans are
`Option Bool` (the interface declares them optional; the factory always
fills them). -/
inductive ResourcePath : Type where
  | mk (name : String) (absolute : Option Bool) (relative : Option Bool)
      (parent : JSParent) : ResourcePath

/-- A value of the TypeScript type `ResourcePath | null | undefined`. -/
inductive JSParent : Type where
  | jsNull : JSParent
  | jsUndef : JSParent
  | jsNode (p : ResourcePath) : JSParent

end

deriving instance DecidableEq for ResourcePath
deriving instance DecidableEq for JSParent

def ResourcePath.name : ResourcePath → String
  | .mk n _ _ _ => n

def ResourcePath.absolute : ResourcePath → Option Bool
  | .mk _ a _ _ => a

def ResourcePath.relative : ResourcePath → Option Bool
  | .mk _ _ r _ => r

def ResourcePath.parent : ResourcePath → JSParent
  | .mk _ _ _ p => p

/-- `isAbsolute(path)` from `src/resourcepath.ts`:
`while (cursor != null && cursor.absolute != null) cursor = cursor.parent;
return cursor.absolute != null ? cursor.absolute : cursor === null;`
When the loop leaves `cursor` at `null`/`undefined`, the final statement
reads `cursor.absolute` on a nullish value, a `TypeError`. -/
def isAbsolute : JSParent → Except JSErr Bool
  | .jsNull =>
      .error (.typError "Cannot read properties of null reading absolute")
  | .jsUndef =>
      .error (.typError "Cannot read properties of undefined reading absolute")
  | .jsNode (.mk _ abs _ par) =>
      match abs with
      | some _ => isAbsolute par
      | none => .ok false

/-- `isRelative(path)` from `src/resourcepath.ts`, same loop shape over the
`relative` field, final fallback `cursor === undefined`. -/
def isRelative : JSParent → Except JSErr Bool
  | .jsNull =>
      .error (.typError "Cannot read properties of null reading relative")
  | .jsUndef =>
      .error (.typError "Cannot read properties of undefined reading relative")
  | .jsNode (.mk _ _ rel par) =>
      match rel with
      | some _ => isRelative par
      | none => .ok false

/-- The `absolute` field the factory stores:
`parent == null ? parent === null : parent.absolute`. -/
def absField : JSParent → Option Bool
  | .jsNull => some true
  | .jsUndef => some false
  | .jsNode p => p.absolute

/-- The `relative` field the factory stores:
`parent == null ? parent === undefined : parent.relative`. -/
def relField : JSParent → Option Bool
  | .jsNull => some false
  | .jsUndef => some true
  | .jsNode p => p.relative

/-- The `ResourcePath(name, parent)` factory from `src/resourcepath.ts`.
Empty names raise a `SyntaxError`; for `"."`/`".."` the factory consults
`isAbsolute(parent)` (propagating its exception), raises a `SyntaxError`
on an absolute parent, returns the parent unchanged when the parent is an
object, and otherwise falls through to allocation. -/
def create (name : String) (parent : JSParent) : Except JSErr ResourcePath :=
  if name = "" then
    .error (.synError "An empty path segment is not allowed")
  else if name = ".." ∨ name = "." then
    match isAbsolute parent with
    | .error e => .error e
    | .ok true =>
        .error (.synError "Absolute path does not allow relative segments")
    | .ok false =>
        match parent with
        | .jsNode p => .ok p
        | _ => .ok (.mk name (absField parent) (relField parent) parent)
  else
    .ok (.mk name (absField parent) (relField parent) parent)

/-- The terminal marker of a chain: the value of `cursor` after
`while (cursor != null) cursor = cursor.parent;` — either `jsNull` or
`jsUndef`. -/
def termOf : JSParent → JSParent
  | .jsNode (.mk _ _ _ par) => termOf par
  | t => t

/-- The `pathResources` array of `resolvePath`: segment names collected
root-to-leaf (each visited name is `unshift`ed while walking leaf-to-root). -/
def collectNames : JSParent → List String
  | .jsNode (.mk n _ _ par) => collectNames par ++ [n]
  | _ => []

/-- The `pathResources.forEach` replay loop of `resolvePath`: `"."` is
skipped, `".."` pops the cursor (raising a `SyntaxError` when the cursor is
nullish), an empty segment raises a `SyntaxError`, and any other segment is
appended with the factory. -/
def replay : List String → Nat → JSParent → Except JSErr JSParent
  | [], _, parent => .ok parent
  | seg :: rest, index, parent =>
    if seg = "." then
      replay rest (index + 1) parent
    else if seg = ".." then
      match parent with
      | .jsNode p => replay rest (index + 1) p.parent
      | _ =>
          .error (.synError
            ("Invalid relative path at segment " ++ toString index ++ "."))
    else if seg = "" then
      .error (.synError
        ("Invalid path segment " ++ toString index ++ ": An empty segment."))
    else
      match create seg parent with
      | .error e => .error e
      | .ok node => replay rest (index + 1) (.jsNode node)

/-- The body of `resolvePath` once `childPath` is an object: collect the
segment names, then branch on the terminal marker.  A chain ending in
`undefined` is replayed starting from the terminal cursor value
(`let parent = cursor`, i.e. `undefined` — the `current` argument is not
consulted, exactly as in the source); a chain ending in `null` is rejected
when it contains a literal `"."`/`".."` and otherwise returned as-is. -/
def resolveChain (current : JSParent) (childPath : ResourcePath) :
    Except JSErr JSParent :=
  let segs := collectNames (.jsNode childPath)
  match termOf (.jsNode childPath) with
  | .jsUndef => replay segs 0 .jsUndef
  | _ =>
      if segs.any (fun s => s = "." || s = "..") then
        .error (.synError "Absolute path cannot contain relative elements.")
      else
        .ok (.jsNode childPath)

/-- `resolvePath(current, path)` from `src/resourcepath.ts`.  A string
argument is handed to the factory in a single call (`ResourcePath(path)`,
with no splitting into segments); the resulting chain is then processed by
`resolveChain`. -/
def resolvePath (current : JSParent) (path : Sum ResourcePath String) :
    Except JSErr JSParent :=
  match (match path with
         | .inr s => create s .jsUndef
         | .inl p => .ok p : Except JSErr ResourcePath) with
  | .error e => .error e
  | .ok childPath => resolveChain current childPath

/-- Is a chain terminated by the explicit `null` marker (absolute)? -/
def isNullTerm (par : JSParent) : Bool :=
  match termOf par with
  | .jsNull => true
  | _ => false

mutual

/-- The node invariant of claim C10: at every node of the chain the name is
non-empty, `absolute` and `relative` are stored booleans with
`absolute = some b` and `relative = some (!b)`, where `b` holds exactly
when the chain terminates in the explicit `null` marker. -/
def invariantB : ResourcePath → Bool
  | .mk name abs rel par =>
      !(name == "") && (abs == some (isNullTerm par)) &&
        (rel == some (!(isNullTerm par))) && invariantParentB par

/-- The invariant lifted to a parent value: trivially true at the two
terminal markers, the node invariant at a node. -/
def invariantParentB : JSParent → Bool
  | .jsNode p => invariantB p
  | _ => true

end

/-! Router, change decoding, and stores (`src/unnamed/part_001`,
`src/unnamed/part_000`, `src/main/resource.ts`). -/

/-- A JSON-ish property value, for record entries and change payloads. -/
inductive JVal : Type where
  | num (n : Int)
  | str (s : String)
deriving DecidableEq, Repr

/-- A `ResourceChange` descriptor: target property or resource, change
type string (`add`/`remove`/`update`/`move`), optional new value, and the
optional `newResource` destination used by `move`. -/
structure ChangeD : Type where
  resource : String
  ctype : String
  value : Option JVal
  newResource : Option String
deriving DecidableEq, Repr

/-- The HTTP responses the router sends: an error body
`{ message, resource }` with a status, a success payload with a status, or
an empty `.end()` response. -/
inductive HttpResponse : Type where
  | jsonMsg (status : Nat) (message : String) (resource : String)
  | payload (status : Nat)
  | noContent (status : Nat)
deriving DecidableEq, Repr

def HttpResponse.status : HttpResponse → Nat
  | .jsonMsg s _ _ => s
  | .payload s => s
  | .noContent s => s

/-- `parseJsonResourceChanges` from `src/resourcepath.ts`: a constant
rejection with `new Error("The parseJsonResourceChanges not implemented")`,
regardless of the request. -/
def parseJsonResourceChanges : Except JSErr (List ChangeD) :=
  .error (.jsError "The parseJsonResourceChanges not implemented")

/-- `parseXmlResourceChanges` from `src/resourcepath.ts`: a constant
rejection, regardless of the request. -/
def parseXmlResourceChanges : Except JSErr (List ChangeD) :=
  .error (.jsError "The parseXmlResourceChanges not implemented")

/-- A resource as the router sees it: its name and, when the record
capability is present (the `"adjust" in source` probe), the `adjust`
member.  The plain CRUD members are modelled separately where a claim
needs them. -/
structure RouterResource : Type where
  name : String
  adjustImpl : Option (String → List ChangeD → Except JSErr Unit)

/-- `isRecordResource(source)`: returns the resource when `"adjust" in
source`, `undefined` otherwise. -/
def isRecordResource (r : RouterResource) :
    Option (String → List ChangeD → Except JSErr Unit) :=
  r.adjustImpl

/-- `parseResourceChanges(request, resource)` from the router: for a
record-capable resource it dispatches on the content type, chaining the
decoded change list into `target.adjust`; other content types reject with
the unsupported-body `TypeError`, and non-record resources reject with the
unsupported-resource `Error`.  The second component records every
invocation of `adjust` (key and change list), for observing that the store
is never reached. -/
def parseResourceChanges (r : RouterResource) (contentType id : String) :
    Except JSErr Unit × List (String × List ChangeD) :=
  match isRecordResource r with
  | some adj =>
      match contentType with
      | "application/xml" =>
          match parseXmlResourceChanges with
          | .error e => (.error e, [])
          | .ok changes => (adj id changes, [(id, changes)])
      | "application/json" =>
          match parseJsonResourceChanges with
          | .error e => (.error e, [])
          | .ok changes => (adj id changes, [(id, changes)])
      | ct => (.error (.typError ("Unsupported content type " ++ ct)), [])
  | none =>
      (.error (.jsError ("Unsupported patch for " ++ r.name)), [])

/-- The PATCH route handler of `registerResource`: non-record resources get
the 405 unsupported-resource response without touching the store; record
resources run `parseResourceChanges`, mapping any rejection to the 400
invalid-request response; on a resolved change list the handler calls
`adjust` again (dead code while the decoders reject — the JS would pass the
`undefined` resolved value, modelled as the empty list), answering 204 on
success and the 404 not-found response on rejection.  The second component
accumulates the `adjust` invocations. -/
def patchHandler (r : RouterResource) (contentType id : String) :
    HttpResponse × List (String × List ChangeD) :=
  match isRecordResource r with
  | some adj =>
      match parseResourceChanges r contentType id with
      | (.error _, calls) =>
          (.jsonMsg 400 "An invalid request." r.name, calls)
      | (.ok _, calls) =>
          match adj id [] with
          | .ok _ => (.noContent 204, calls ++ [(id, [])])
          | .error _ =>
              (.jsonMsg 404 ("The " ++ r.name ++ "/" ++ id
                ++ " does not exist.") r.name,
               calls ++ [(id, [])])
  | none =>
      (.jsonMsg 405 ("The " ++ r.name ++ " does not support PATCH")
        r.name, [])

/-- The route path each `app.<method>` registration of `registerResource`
uses (`src/unnamed/part_001`): list at `path`, get at `path + "/:id"`. -/
def listRoute (path : String) : String := path

def getRoute (path : String) : String := path ++ "/:id"

def createRoute (path : String) : String := path

def updateRoute (path : String) : String := path ++ "/:id"

/-- The PATCH registration: `app.patch(path + ":id", ...)` — the separator
is absent in the source (`src/main/resource.ts` registers its empty
`app.put` handler with the same `path + ":id"` concatenation). -/
def patchRoute (path : String) : String := path ++ ":id"

def deleteRoute (path : String) : String := path ++ "/:id"

/-- A sample store entry (`Skill` from the data module). -/
structure Skill : Type where
  name : String
  description : Option String
deriving DecidableEq, Repr

def storeHas (store : List (String × Skill)) (key : String) : Bool :=
  store.any (fun kv => kv.fst == key)

/-- `Skills.update` from the sample in-memory store
(`src/unnamed/part_000`): resolves after setting the new value when the
key exists, rejects with a `RangeError` when it does not. -/
def skillsUpdate (store : List (String × Skill)) (key : String)
    (value : Skill) : Except JSErr (List (String × Skill)) :=
  if storeHas store key then
    .ok (store.map (fun kv => if kv.fst == key then (kv.fst, value) else kv))
  else
    .error (.rngError "")

/-- The full-update route handler (`app.post(path + "/:id", ...)`) run
against the `Skills` store: with no parser configured it answers 405; with
a parser, any rejection of the parse-then-update pipeline — the `.catch` of
the source — answers the 400 invalid response (whose body also carries the
raw request body, elided here), and success answers `204 .end()`.  The
second component is the store after the request. -/
def updateHandler (parserResult : Option (Except JSErr Skill))
    (store : List (String × Skill)) (id : String) :
    HttpResponse × List (String × Skill) :=
  match parserResult with
  | none =>
      (.jsonMsg 405 "Unsupported skill operation." "skill", store)
  | some (.error _) =>
      (.jsonMsg 400 "Invalid skill." "skill", store)
  | some (.ok value) =>
      match skillsUpdate store id value with
      | .ok store2 => (.noContent 204, store2)
      | .error _ => (.jsonMsg 400 "Invalid skill." "skill", store)

/-- A record value: properties with their values, as an association list. -/
abbrev RecordVal : Type := List (String × JVal)

def recGet (r : RecordVal) (prop : String) : Option JVal :=
  match r.find? (fun kv => kv.fst == prop) with
  | some kv => some kv.snd
  | none => none

def recRemove (r : RecordVal) (prop : String) : RecordVal :=
  r.filter (fun kv => !(kv.fst == prop))

def recSet (r : RecordVal) (prop : String) (v : JVal) : RecordVal :=
  recRemove r prop ++ [(prop, v)]

def lookupRec (store : List (String × RecordVal)) (key : String) :
    Option RecordVal :=
  match store.find? (fun kv => kv.fst == key) with
  | some kv => some kv.snd
  | none => none

/-- Modelled from the spec: the record capability surface of §3/§4.3 — the
enumerable mutable property names and the per-property value validator.
No implementation exists under `src/`; only the `RecordResource`
interface declares `properties`/`validValue`. -/
structure RecordSpec : Type where
  properties : List String
  validValue : String → JVal → Bool

/-- Modelled from the spec: a descriptor is valid when its addressed
property is recognized and, per its change type, the required payload is
present — `add`/`update` need a `value` the validator accepts, `move`
needs its `newResource` destination, `remove` needs nothing further, and
any other type string is invalid. -/
def validDescriptor (R : RecordSpec) (c : ChangeD) : Bool :=
  R.properties.contains c.resource &&
    (match c.ctype, c.value, c.newResource with
     | "add", some v, _ => R.validValue c.resource v
     | "update", some v, _ => R.validValue c.resource v
     | "remove", _, _ => true
     | "move", _, some _ => true
     | _, _, _ => false)

/-- Modelled from the spec: the effect of one descriptor on a record —
`add`/`update` set the property, `remove` clears it to its absent state,
`move` reassigns the property to the destination name. -/
def applyDescriptor (c : ChangeD) (r : RecordVal) : RecordVal :=
  match c.ctype, c.value, c.newResource with
  | "add", some v, _ => recSet r c.resource v
  | "update", some v, _ => recSet r c.resource v
  | "remove", _, _ => recRemove r c.resource
  | "move", _, some dst =>
      match recGet r c.resource with
      | some v => recSet (recRemove r c.resource) dst v
      | none => r
  | _, _, _ => r

/-- Modelled from the spec: `adjust(key, values)` of the record capability
(§4.3) — only the `RecordResource` interface declaration and its callers
exist under `src/`.  Per the spec it fails with a not-found (range)
condition when the key is absent before applying any change, validates
every descriptor before mutating and fails with a syntax condition leaving
the store observably unchanged when any descriptor is invalid, and
otherwise applies the whole batch in order to the entry at the key. -/
def adjust (R : RecordSpec) (store : List (String × RecordVal))
    (key : String) (changes : List ChangeD) :
    Except JSErr Unit × List (String × RecordVal) :=
  match lookupRec store key with
  | none => (.error (.rngError ("No entry for key " ++ key)), store)
  | some r0 =>
      if changes.all (fun c => validDescriptor R c) then
        (.ok (),
         store.map (fun kv =>
           if kv.fst == key then
             (kv.fst, changes.foldl (fun r c => applyDescriptor c r) r0)
           else kv))
      else
        (.error (.synError ("Invalid change for " ++ key)), store)

/-- C1: the claim states that `resolve(basePath, path)` replays a relative
path's segments starting from `basePath`, so the result extends `basePath`.
The code instead initializes the replay cursor with the chain's terminal
value (`let parent = cursor`, which is `undefined` in the relative branch)
and never consults `current`.  At the concrete input
`current = ResourcePath("a", null)`, `path = ResourcePath("b")` the result
is the relative chain `"b"` whose parent is `undefined`, not a child of the
base; and the string `"x/y"` is handed to the factory in one call, yielding
a single node named `"x/y"` rather than a parsed two-segment chain. -/
theorem c1_resolvePath_drops_base_at_concrete_input :
    resolvePath (.jsNode (.mk "a" (some true) (some false) .jsNull))
        (.inl (.mk "b" (some false) (some true) .jsUndef))
      = .ok (.jsNode (.mk "b" (some false) (some true) .jsUndef)) ∧
    (ResourcePath.mk "b" (some false) (some true) JSParent.jsUndef).parent
      = JSParent.jsUndef ∧
    JSParent.jsUndef
      ≠ JSParent.jsNode (.mk "a" (some true) (some false) .jsNull) ∧
    resolvePath (.jsNode (.mk "a" (some true) (some false) .jsNull))
        (.inr "x/y")
      = .ok (.jsNode (.mk "x/y" (some false) (some true) .jsUndef)) :=
  ⟨rfl, rfl, by decide, rfl⟩

/-- C2 counterexample: the claim asserts that resolving the absolute path
string `"/a/b"` against any base returns an absolute path reaching the
root.  The code never splits a string into segments: `"/a/b"` becomes a
single node named `"/a/b"` with `undefined` parent — a relative chain, so
the result does not reach the `null` root marker. -/
theorem c2_absolute_string_not_recognized :
    resolvePath (.jsNode (.mk "base" (some true) (some false) .jsNull))
        (.inr "/a/b")
      = .ok (.jsNode (.mk "/a/b" (some false) (some true) .jsUndef)) ∧
    termOf (.jsNode (.mk "/a/b" (some false) (some true) .jsUndef))
      = JSParent.jsUndef ∧
    JSParent.jsUndef ≠ JSParent.jsNull :=
  ⟨rfl, rfl, by decide⟩

/-- C2 (amended): resolving an absolute path argument given as a chain (a
`ResourcePath` terminating in the explicit `null` marker) against any base
ignores the base entirely and returns that chain as-is, provided the chain
carries no literal `"."`/`".."` segment; absolute path strings are not
recognized, since strings are never parsed segment by segment. -/
theorem c2_absolute_chain_ignores_base (base : JSParent) (p : ResourcePath)
    (habs : termOf (.jsNode p) = .jsNull)
    (hres : (collectNames (.jsNode p)).any (fun s => s = "." || s = "..")
      = false) :
    resolvePath base (.inl p) = .ok (.jsNode p) := by
  show resolveChain base p = .ok (.jsNode p)
  unfold resolveChain
  rw [habs]
  simp [hres]

/-- C2 witness: the amended theorem applied at the base `"base"` (an
absolute root node) and the absolute chain `"a"`. -/
theorem c2_absolute_chain_ignores_base_witness :
    resolvePath (.jsNode (.mk "base" (some true) (some false) .jsNull))
        (.inl (.mk "a" (some true) (some false) .jsNull))
      = .ok (.jsNode (.mk "a" (some true) (some false) .jsNull)) :=
  c2_absolute_chain_ignores_base
    (.jsNode (.mk "base" (some true) (some false) .jsNull))
    (.mk "a" (some true) (some false) .jsNull) rfl rfl

/-- C3: the claim states `create(".", parent)`/`create("..", parent)`
return the parent unchanged for relative or root parents and raise a
`SyntaxError` for absolute parents.  In the code every `"."`/`".."` call
first evaluates `isAbsolute(parent)`, which dereferences the nullish
terminal cursor and raises a `TypeError` for `null`, `undefined`, and every
factory-built parent chain — so the factory never returns the parent and
never raises the claimed `SyntaxError`. -/
theorem c3_dot_create_type_error :
    create "." (.jsNode (.mk "r" (some false) (some true) .jsUndef))
      = .error (.typError
          "Cannot read properties of undefined reading absolute") ∧
    create ".." (.jsNode (.mk "r" (some false) (some true) .jsUndef))
      = .error (.typError
          "Cannot read properties of undefined reading absolute") ∧
    create "." (.jsNode (.mk "a" (some true) (some false) .jsNull))
      = .error (.typError
          "Cannot read properties of null reading absolute") ∧
    create ".." (.jsNode (.mk "a" (some true) (some false) .jsNull))
      = .error (.typError
          "Cannot read properties of null reading absolute") ∧
    create "." JSParent.jsNull
      = .error (.typError
          "Cannot read properties of null reading absolute") ∧
    create "." JSParent.jsUndef
      = .error (.typError
          "Cannot read properties of undefined reading absolute") :=
  ⟨rfl, rfl, rfl, rfl, rfl, rfl⟩

/-- C4: the claim states `isAbsolute`/`isRelative` return a boolean for
`null`/`undefined` input, with `isAbsolute(create("a", null)) = true` and
`isAbsolute(create("a", undefined)) = false`.  The code's walk loop
continues while the `absolute` field is non-nullish, so it always runs off
the end of a factory chain and the final statement reads `.absolute` of the
nullish cursor: a `TypeError` for `null`, `undefined`, and every
factory-built chain. -/
theorem c4_isAbsolute_isRelative_type_error :
    isAbsolute JSParent.jsNull
      = .error (.typError
          "Cannot read properties of null reading absolute") ∧
    isAbsolute JSParent.jsUndef
      = .error (.typError
          "Cannot read properties of undefined reading absolute") ∧
    create "a" JSParent.jsNull
      = .ok (.mk "a" (some true) (some false) .jsNull) ∧
    isAbsolute (.jsNode (.mk "a" (some true) (some false) .jsNull))
      = .error (.typError
          "Cannot read properties of null reading absolute") ∧
    create "a" JSParent.jsUndef
      = .ok (.mk "a" (some false) (some true) .jsUndef) ∧
    isAbsolute (.jsNode (.mk "a" (some false) (some true) .jsUndef))
      = .error (.typError
          "Cannot read properties of undefined reading absolute") ∧
    isRelative (.jsNode (.mk "a" (some false) (some true) .jsUndef))
      = .error (.typError
          "Cannot read properties of undefined reading relative") :=
  ⟨rfl, rfl, rfl, rfl, rfl, rfl, rfl⟩

/-- C10: for every name outside `{".", ".."}` and non-empty, and every
parent satisfying the chain invariant, the factory succeeds, allocates a
new node whose stored `absolute`/`relative` fields are the booleans
determined by the parent, and the resulting chain satisfies the invariant
at every node: non-empty names, `absolute = some b`, `relative = some !b`,
with `b` true exactly when the chain terminates at the `null` root marker
and false exactly when it terminates at the `undefined` marker. -/
theorem c10_factory_invariant (name : String) (parent : JSParent)
    (h1 : name ≠ "") (h2 : name ≠ ".") (h3 : name ≠ "..")
    (h4 : invariantParentB parent = true) :
    create name parent
      = .ok (.mk name (absField parent) (relField parent) parent) ∧
    invariantB (.mk name (absField parent) (relField parent) parent)
      = true := by
  constructor
  · unfold create
    rw [if_neg h1, if_neg]
    intro h
    rcases h with h | h
    · exact h3 h
    · exact h2 h
  · cases parent with
    | jsNull =>
        simp [invariantB, invariantParentB, absField, relField, isNullTerm,
          termOf, h1]
    | jsUndef =>
        simp [invariantB, invariantParentB, absField, relField, isNullTerm,
          termOf, h1]
    | jsNode q =>
        cases q with
        | mk qn qa qr qp =>
          simp only [invariantParentB, invariantB, Bool.and_eq_true,
            beq_iff_eq, Bool.not_eq_true'] at h4
          obtain ⟨⟨⟨hqn, hqa⟩, hqr⟩, hqp⟩ := h4
          simp [invariantB, invariantParentB, absField, relField, isNullTerm,
            termOf, h1, hqn, hqa, hqr, hqp, ResourcePath.absolute,
            ResourcePath.relative]

/-- C10 witness: the invariant theorem applied with the name `"c"` and the
parent chain `"b"` under the absolute root `"a"`. -/
theorem c10_factory_invariant_witness :
    create "c"
        (.jsNode (.mk "b" (some true) (some false)
          (.jsNode (.mk "a" (some true) (some false) .jsNull))))
      = .ok (.mk "c" (some true) (some false)
          (.jsNode (.mk "b" (some true) (some false)
            (.jsNode (.mk "a" (some true) (some false) .jsNull))))) ∧
    invariantB (.mk "c" (some true) (some false)
        (.jsNode (.mk "b" (some true) (some false)
          (.jsNode (.mk "a" (some true) (some false) .jsNull)))))
      = true :=
  c10_factory_invariant "c"
    (.jsNode (.mk "b" (some true) (some false)
      (.jsNode (.mk "a" (some true) (some false) .jsNull))))
    (by decide) (by decide) (by decide) (by decide)

/-- C5: for every record-capable store, key, and batch of change
descriptors, `adjust` fails with a not-found (range) condition when the key
does not exist, before any change is applied; and when any descriptor in
the batch is invalid the whole batch fails with a syntax condition and the
store — in particular the value at the key — is observably unchanged. -/
theorem c5_adjust_all_or_nothing (R : RecordSpec)
    (store : List (String × RecordVal)) (key : String)
    (changes : List ChangeD) :
    (lookupRec store key = none →
       adjust R store key changes
         = (.error (.rngError ("No entry for key " ++ key)), store)) ∧
    (lookupRec store key ≠ none →
     (∃ c ∈ changes, validDescriptor R c = false) →
       adjust R store key changes
         = (.error (.synError ("Invalid change for " ++ key)), store)) := by
  constructor
  · intro h
    unfold adjust
    rw [h]
  · intro h1 h2
    obtain ⟨c, hc, hcf⟩ := h2
    obtain ⟨r0, hr0⟩ : ∃ r0, lookupRec store key = some r0 := by
      cases hl : lookupRec store key with
      | none => exact absurd hl h1
      | some r0 => exact ⟨r0, rfl⟩
    unfold adjust
    rw [hr0]
    have hall : changes.all (fun c => validDescriptor R c) = false := by
      rw [List.all_eq_false]
      exact ⟨c, hc, by simp [hcf]⟩
    rw [hall]
    simp

/-- C5 witness: the theorem applied at the spec §8 scenario — entry
`{a: 1, b: 2}` whose validator rejects non-numeric values, with the batch
`[update a with 5, update b with the string invalid]`: the missing key
`"missing"` gives the range condition, and the invalid batch at `"k"`
gives the syntax condition with the store unchanged. -/
theorem c5_adjust_all_or_nothing_witness :
    (adjust ⟨["a", "b"],
        fun _ v => match v with | .num _ => true | .str _ => false⟩
      [("k", [("a", .num 1), ("b", .num 2)])] "missing"
      [⟨"a", "update", some (.num 5), none⟩]
      = (.error (.rngError "No entry for key missing"),
         [("k", [("a", .num 1), ("b", .num 2)])])) ∧
    (adjust ⟨["a", "b"],
        fun _ v => match v with | .num _ => true | .str _ => false⟩
      [("k", [("a", .num 1), ("b", .num 2)])] "k"
      [⟨"a", "update", some (.num 5), none⟩,
       ⟨"b", "update", some (.str "invalid"), none⟩]
      = (.error (.synError "Invalid change for k"),
         [("k", [("a", .num 1), ("b", .num 2)])])) :=
  ⟨(c5_adjust_all_or_nothing _ _ "missing" _).1 rfl,
   (c5_adjust_all_or_nothing _ _ "k" _).2 (by decide)
     ⟨⟨"b", "update", some (.str "invalid"), none⟩, by decide, by decide⟩⟩

/-- C6 counterexample: with a decoder configured and a store holding only
the key `"1"`, a full update of the absent key `"9"` rejects with the
not-found `RangeError` in `Skills.update`, but the route's `.catch`
answers the 400 invalid-input response — not a not-found outcome (the
router's not-found responses use status 404). -/
theorem c6_not_found_answers_bad_request :
    (updateHandler (some (.ok ⟨"Battle", none⟩))
        [("1", ⟨"X", none⟩)] "9").1.status = 400 ∧
    updateHandler (some (.ok ⟨"Battle", none⟩)) [("1", ⟨"X", none⟩)] "9"
      = (.jsonMsg 400 "Invalid skill." "skill", [("1", ⟨"X", none⟩)]) ∧
    storeHas [("1", (⟨"X", none⟩ : Skill))] "9" = false ∧
    (400 : Nat) ≠ 404 :=
  ⟨rfl, rfl, rfl, by decide⟩

/-- C6 (amended): for the full-update route with a decoder configured,
a not-found rejection from the store is mapped — like every other
rejection of the parse-then-update pipeline — to the 400 bad-request
invalid-input response, leaving the store unchanged; a successful update
answers the empty 204 no-content response. -/
theorem c6_update_route_mapping (v : Skill)
    (store : List (String × Skill)) (id : String) :
    (storeHas store id = false →
       updateHandler (some (.ok v)) store id
         = (.jsonMsg 400 "Invalid skill." "skill", store)) ∧
    (storeHas store id = true →
       updateHandler (some (.ok v)) store id
         = (.noContent 204,
            store.map (fun kv =>
              if kv.fst == id then (kv.fst, v) else kv))) := by
  constructor
  · intro h
    simp [updateHandler, skillsUpdate, h]
  · intro h
    simp [updateHandler, skillsUpdate, h]

/-- C6 witness: the amended theorem applied at the singleton store `"1"`,
once with the absent key `"9"` and once with the present key `"1"`. -/
theorem c6_update_route_mapping_witness :
    updateHandler (some (.ok ⟨"Battle", none⟩)) [("1", ⟨"X", none⟩)] "9"
      = (.jsonMsg 400 "Invalid skill." "skill", [("1", ⟨"X", none⟩)]) ∧
    updateHandler (some (.ok ⟨"Battle", none⟩)) [("1", ⟨"X", none⟩)] "1"
      = (.noContent 204, [("1", ⟨"Battle", none⟩)]) :=
  ⟨(c6_update_route_mapping ⟨"Battle", none⟩ [("1", ⟨"X", none⟩)] "9").1 rfl,
   (c6_update_route_mapping ⟨"Battle", none⟩ [("1", ⟨"X", none⟩)] "1").2 rfl⟩

/-- C7: the claim states the PATCH route is registered at the base path
plus `"/"` plus the key segment, exactly like the other per-key routes.
In the source the PATCH registration concatenates `path + ":id"` without
the separator, unlike GET/POST/DELETE which use `path + "/:id"`: at the
base path `"/skills"` the PATCH route is `"/skills:id"`, not
`"/skills/:id"`. -/
theorem c7_patch_route_missing_separator :
    patchRoute "/skills" = "/skills:id" ∧
    getRoute "/skills" = "/skills/:id" ∧
    updateRoute "/skills" = "/skills/:id" ∧
    deleteRoute "/skills" = "/skills/:id" ∧
    patchRoute "/skills" ≠ "/skills" ++ "/" ++ ":id" :=
  ⟨rfl, rfl, rfl, rfl, by decide⟩

/-- C8: a PATCH request against a bound resource lacking the record
capability (no `adjust` member) answers the 405 method-not-allowed
response, and the handler performs no `adjust` invocation (empty
invocation trace — the PATCH handler reaches no other store operation). -/
theorem c8_patch_without_record_capability (r : RouterResource)
    (h : r.adjustImpl = none) (contentType id : String) :
    patchHandler r contentType id
      = (.jsonMsg 405 ("The " ++ r.name ++ " does not support PATCH")
          r.name, []) := by
  unfold patchHandler isRecordResource
  rw [h]

/-- C8 witness: the theorem applied at a `"skill"` resource with no
`adjust` member and a JSON PATCH request for key `"1"`. -/
theorem c8_patch_without_record_capability_witness :
    patchHandler ⟨"skill", none⟩ "application/json" "1"
      = (.jsonMsg 405 "The skill does not support PATCH" "skill", []) :=
  c8_patch_without_record_capability ⟨"skill", none⟩ rfl
    "application/json" "1"

/-- C9: both change decoders are constant rejections carrying their
not-implemented `Error`; consequently every PATCH request with content
type `application/json` or `application/xml` against a record-capable
resource answers the 400 invalid-request response, and `adjust` is never
invoked with a successfully decoded change list (the invocation trace is
empty). -/
theorem c9_decoders_not_implemented (r : RouterResource)
    (adj : String → List ChangeD → Except JSErr Unit)
    (h : r.adjustImpl = some adj) (contentType id : String)
    (hct : contentType = "application/json"
      ∨ contentType = "application/xml") :
    parseJsonResourceChanges
      = .error (.jsError "The parseJsonResourceChanges not implemented") ∧
    parseXmlResourceChanges
      = .error (.jsError "The parseXmlResourceChanges not implemented") ∧
    patchHandler r contentType id
      = (.jsonMsg 400 "An invalid request." r.name, []) := by
  refine ⟨rfl, rfl, ?_⟩
  unfold patchHandler parseResourceChanges isRecordResource
  rw [h]
  rcases hct with hct | hct <;> rw [hct] <;> rfl

/-- C9 witness: the theorem applied at a record-capable `"skill"` resource
whose `adjust` always succeeds, with a JSON PATCH request for key `"1"`. -/
theorem c9_decoders_not_implemented_witness :
    parseJsonResourceChanges
      = .error (.jsError "The parseJsonResourceChanges not implemented") ∧
    patchHandler ⟨"skill", some (fun _ _ => .ok ())⟩ "application/json" "1"
      = (.jsonMsg 400 "An invalid request." "skill", []) :=
  ⟨(c9_decoders_not_implemented ⟨"skill", some (fun _ _ => .ok ())⟩
      (fun _ _ => .ok ()) rfl "application/json" "1" (Or.inl rfl)).1,
   (c9_decoders_not_implemented ⟨"skill", some (fun _ _ => .ok ())⟩
      (fun _ _ => .ok ()) rfl "application/json" "1" (Or.inl rfl)).2.2⟩

end DuneApi
